import Mathlib

/-!
# Verification of the ai-ros diagnostic reasoning core

A shallow embedding, in Lean 4, of the diagnostic reasoning core of the
ai-ros repository, together with theorems settling the specification
claims about it.

Embedded source files:
* `app/diagnostics/fault_tree.py` — the static fault-tree knowledge base;
* `app/diagnostics/diagnostic_service.py` — single- and multi-error
  diagnosis with runtime-state probability adjustment;
* `app/services/fleet_diagnostic_service.py` — fleet aggregation,
  systemic / single-unit classification, root-cause analysis;
* `app/services/query_service.py` — retrieval-result merging and the
  top-line confidence score.

Modelling conventions: Python floats are modelled as `ℚ` (all constants in
the source are decimal literals, all derived values are ratios of small
integers); Python `datetime` values are modelled as epoch seconds (`Int`),
with `timedelta(hours=1)` equal to `3600`; Python dicts that are built in
insertion order are modelled as association lists; Python sets are modelled
as first-occurrence-deduplicated lists (only their cardinality is ever
observed by the code under verification); purely presentational string
fields (`formatted_for_prompt`, `summary`, `affected_ratio`, `time_window`)
are omitted.  A Python statement that raises is modelled by an
`Except.error` carrying the exception name.
-/

namespace AiRos

/-! ## Character-level string helpers

Python's `"pat" in s.lower()` substring test.  `String.toLower` is defined
by well-founded recursion in core and does not reduce definitionally, so
the test is implemented over `List Char` directly. -/

/-- Lower-case a character list (`str.lower()` on the underlying chars). -/
def lower_chars (l : List Char) : List Char := l.map Char.toLower

/-- `head_matches pat l` is true when `pat` is an initial segment of `l`. -/
def head_matches : List Char → List Char → Bool
  | [], _ => true
  | _ :: _, [] => false
  | a :: as, b :: bs => a == b && head_matches as bs

/-- `has_sub_chars pat l` is true when `pat` occurs contiguously in `l`. -/
def has_sub_chars (pat : List Char) : List Char → Bool
  | [] => pat.isEmpty
  | c :: rest => head_matches pat (c :: rest) || has_sub_chars pat rest

/-- Python `pat in s.lower()` (the pattern is already lower-case in every
call site of the source). -/
def low_contains (s pat : String) : Bool :=
  has_sub_chars pat.data (lower_chars s.data)

/-! ## Fault-tree knowledge base (`app/diagnostics/fault_tree.py`) -/

/-- `FaultCause` (fault_tree.py lines 8–14). -/
structure FaultCause where
  id : String
  description : String
  check : String
  probability : ℚ
  prerequisites : List String := []
deriving DecidableEq, Repr

/-- `FaultTree` (fault_tree.py lines 16–24). -/
structure FaultTree where
  error_code : String
  description : String
  category : String := "safety"
  severity : String := "high"
  causes : List FaultCause
  recovery_steps : List String := []
  related_codes : List String := []
deriving DecidableEq, Repr

/-- The `"E201"` entry of `FAULT_TREES`. -/
def fault_tree_E201 : FaultTree :=
  { error_code := "E201"
    description := "Safety stop active - All movement inhibited"
    category := "safety"
    severity := "high"
    causes :=
      [ { id := "laser_triggered"
          description := "Safety laser scanner detected obstacle in protection field"
          check := "Check laser scanner field status and clear any obstacles"
          probability := 0.6
          prerequisites := ["laser_scanner_connected"] }
      , { id := "emergency_stop_pressed"
          description := "Emergency stop button pressed"
          check := "Inspect all physical emergency stop buttons and release if pressed"
          probability := 0.3
          prerequisites := ["emergency_circuit_active"] }
      , { id := "safety_plc_fault"
          description := "Safety PLC not in ready state"
          check := "Verify safety PLC status LEDs and reset if necessary"
          probability := 0.2
          prerequisites := ["plc_powered"] }
      , { id := "safety_gate_open"
          description := "Safety gate or door interlock open"
          check := "Ensure all safety gates are properly closed"
          probability := 0.4 } ]
    recovery_steps :=
      [ "Clear any obstacles from safety zones"
      , "Reset emergency stop buttons"
      , "Cycle safety PLC power"
      , "Perform safety system test" ] }

/-- The `"E301"` entry of `FAULT_TREES`. -/
def fault_tree_E301 : FaultTree :=
  { error_code := "E301"
    description := "Joint limit violation - Joint position exceeds allowed range"
    category := "motion"
    severity := "medium"
    causes :=
      [ { id := "software_limit_exceeded"
          description := "Software joint limit exceeded due to incorrect parameters"
          check := "Check joint limit parameters in configuration files"
          probability := 0.5 }
      , { id := "hardware_limit_triggered"
          description := "Hardware limit switch triggered"
          check := "Inspect physical limit switches and wiring"
          probability := 0.4 }
      , { id := "calibration_error"
          description := "Joint calibration incorrect or lost"
          check := "Re-calibrate joint zero position"
          probability := 0.3 }
      , { id := "controller_fault"
          description := "Motion controller internal error"
          check := "Check controller error logs and reset"
          probability := 0.2 } ]
    recovery_steps :=
      [ "Move joint to safe position manually"
      , "Verify and adjust joint limits"
      , "Re-calibrate joint"
      , "Reset motion controller" ] }

/-- The `"E101"` entry of `FAULT_TREES`. -/
def fault_tree_E101 : FaultTree :=
  { error_code := "E101"
    description := "ROS master connection failure"
    category := "communication"
    severity := "high"
    causes :=
      [ { id := "network_issue"
          description := "Network connectivity problem"
          check := "Check network cables, switches, and firewall settings"
          probability := 0.6 }
      , { id := "master_not_running"
          description := "ROS master process not running"
          check := "Verify roscore is running on the correct machine"
          probability := 0.5 }
      , { id := "host_config_error"
          description := "Incorrect hostname or IP configuration"
          check := "Check ROS_MASTER_URI and /etc/hosts configuration"
          probability := 0.4 }
      , { id := "port_blocked"
          description := "Required ports blocked by firewall"
          check := "Ensure ports 11311 (ROS master) are open"
          probability := 0.3 } ]
    recovery_steps :=
      [ "Restart roscore on master machine"
      , "Verify network connectivity"
      , "Check ROS environment variables"
      , "Restart affected nodes" ] }

/-- The `"E102"` entry of `FAULT_TREES`. -/
def fault_tree_E102 : FaultTree :=
  { error_code := "E102"
    description := "ROS node initialization failure"
    category := "system"
    severity := "medium"
    causes :=
      [ { id := "parameter_error"
          description := "Required parameters missing or invalid"
          check := "Check launch files and parameter server"
          probability := 0.5 }
      , { id := "resource_conflict"
          description := "Resource conflict (port, device, file)"
          check := "Check for duplicate node names or resource usage"
          probability := 0.4 }
      , { id := "dependency_missing"
          description := "Required dependency or package not available"
          check := "Verify all ROS packages are installed and sourced"
          probability := 0.3 }
      , { id := "permission_issue"
          description := "Permission denied for required resources"
          check := "Check file permissions and user privileges"
          probability := 0.2 } ]
    recovery_steps :=
      [ "Verify parameter values"
      , "Check for naming conflicts"
      , "Install missing dependencies"
      , "Adjust permissions" ] }

/-- The `"W001"` entry of `FAULT_TREES`. -/
def fault_tree_W001 : FaultTree :=
  { error_code := "W001"
    description := "Low battery warning"
    category := "power"
    severity := "low"
    causes :=
      [ { id := "battery_depleted"
          description := "Battery charge level critically low"
          check := "Check battery voltage and state of charge"
          probability := 0.8 }
      , { id := "charging_fault"
          description := "Charger not functioning properly"
          check := "Verify charger connection and output"
          probability := 0.3 }
      , { id := "battery_fault"
          description := "Battery cell or management system fault"
          check := "Check battery management system diagnostics"
          probability := 0.2 }
      , { id := "high_power_drain"
          description := "Excessive power consumption"
          check := "Monitor current draw during operation"
          probability := 0.4 } ]
    recovery_steps :=
      [ "Connect to charger immediately"
      , "Reduce power consumption"
      , "Check charging system"
      , "Replace battery if necessary" ] }

/-- `FAULT_TREES` (fault_tree.py lines 27–221), as an insertion-ordered
association list. -/
def FAULT_TREES : List (String × FaultTree) :=
  [ ("E201", fault_tree_E201)
  , ("E301", fault_tree_E301)
  , ("E101", fault_tree_E101)
  , ("E102", fault_tree_E102)
  , ("W001", fault_tree_W001) ]

/-- `get_fault_tree` (fault_tree.py lines 223–225): `FAULT_TREES.get(code)`. -/
def get_fault_tree (error_code : String) : Option FaultTree :=
  (FAULT_TREES.find? (fun p => p.1 == error_code)).map Prod.snd

/-- Modelled from the spec: the `RuntimeState` live-signal snapshot record is
imported by the diagnostic service from `app.models.schemas` but is absent
from the source snapshot; its fields are the ones the reasoning core reads
(`robot_id`, `errors`, `active_topics`, `parameters`) — §3's "live signal"
(active channels plus a string-keyed parameter map). -/
structure RuntimeState where
  robot_id : String
  errors : List String := []
  active_topics : List String := []
  parameters : List (String × String) := []
deriving DecidableEq, Repr

/-! ## Single-error diagnosis (`app/diagnostics/diagnostic_service.py`) -/

/-- One entry of the `possible_causes` list of a diagnosis result
(diagnostic_service.py lines 48–57): the cause's catalog fields plus its
`adjusted_probability`. -/
structure CauseOut where
  id : String
  description : String
  check : String
  probability : ℚ
  adjusted_probability : ℚ
deriving DecidableEq, Repr

/-- The result dict of `diagnose_single_error`.  Fields that only one of
the two shapes (`status="unknown"` / `status="diagnosed"`) carries are
`Option`s: the unknown shape has `message`/`suggested_action` and *no*
`severity`, `description` or `category` keys.  The purely presentational
`formatted_for_prompt` string is omitted. -/
structure DiagnosisResult where
  error_code : String
  status : String
  message : Option String := none
  suggested_action : Option String := none
  description : Option String := none
  category : Option String := none
  severity : Option String := none
  possible_causes : List CauseOut := []
  recovery_steps : List String := []
  runtime_enhanced : Bool := false
deriving DecidableEq, Repr

/-- Descending order on `adjusted_probability`, the key of the
`sort(..., reverse=True)` in `_adjust_probabilities_with_runtime`. -/
def cause_ge (a b : CauseOut) : Prop :=
  b.adjusted_probability ≤ a.adjusted_probability

instance : DecidableRel cause_ge := fun a b =>
  inferInstanceAs (Decidable (b.adjusted_probability ≤ a.adjusted_probability))

instance : IsTotal CauseOut cause_ge :=
  ⟨fun a b => le_total b.adjusted_probability a.adjusted_probability⟩

instance : IsTrans CauseOut cause_ge :=
  ⟨fun _ _ _ hab hbc => le_trans hbc hab⟩

/-- `_adjust_probabilities_with_runtime` (diagnostic_service.py lines
68–121): keyword-correlation boosts, the `[0.1, 0.9]` clamp, and the
descending sort by adjusted probability. -/
def adjust_probabilities_with_runtime (diagnosis : DiagnosisResult)
    (runtime_state : RuntimeState) : DiagnosisResult :=
  let adjusted_causes := diagnosis.possible_causes.map (fun cause =>
    let p0 := cause.probability
    let p1 :=
      if !runtime_state.active_topics.isEmpty &&
          low_contains cause.description "laser" &&
          runtime_state.active_topics.any (fun t => low_contains t "laser")
      then p0 * 1.3 else p0
    let p2 :=
      if !runtime_state.active_topics.isEmpty &&
          low_contains cause.description "battery" &&
          runtime_state.active_topics.any (fun t => low_contains t "battery")
      then p1 * 1.2 else p1
    let p3 :=
      if !runtime_state.parameters.isEmpty &&
          low_contains cause.description "emergency" &&
          runtime_state.parameters.any
            (fun kv => low_contains kv.1 "emergency" || low_contains kv.1 "stop")
      then p2 * 1.4 else p2
    let p4 :=
      if !runtime_state.parameters.isEmpty &&
          low_contains cause.description "joint" &&
          runtime_state.parameters.any
            (fun kv => low_contains kv.1 "joint" || low_contains kv.1 "position")
      then p3 * 1.3 else p3
    let clamped := min (max p4 0.1) 0.9
    { cause with adjusted_probability := clamped })
  { diagnosis with
      possible_causes := adjusted_causes.insertionSort cause_ge
      runtime_enhanced := true }

/-- `diagnose_single_error` (diagnostic_service.py lines 19–66). -/
def diagnose_single_error (error_code : String)
    (runtime_state : Option RuntimeState := none) : DiagnosisResult :=
  match get_fault_tree error_code with
  | none =>
      { error_code := error_code
        status := "unknown"
        message := some ("No diagnostic tree available for error " ++ error_code)
        suggested_action := some "Check system logs and documentation" }
  | some tree =>
      let result : DiagnosisResult :=
        { error_code := error_code
          status := "diagnosed"
          description := some tree.description
          category := some tree.category
          severity := some tree.severity
          possible_causes := tree.causes.map (fun cause =>
            { id := cause.id
              description := cause.description
              check := cause.check
              probability := cause.probability
              adjusted_probability := cause.probability })
          recovery_steps := tree.recovery_steps }
      match runtime_state with
      | some rs => adjust_probabilities_with_runtime result rs
      | none => result

/-- The `{"high": 3, "medium": 2, "low": 1}.get(s, 0)` severity ranking
used throughout the source. -/
def severity_rank (s : String) : ℕ :=
  if s == "high" then 3 else if s == "medium" then 2 else if s == "low" then 1 else 0

/-- The combined result dict of `diagnose_multiple_errors` for the
`status="diagnosed"` outcome; the presentational `summary` string is
omitted. -/
structure CombinedDiagnosis where
  status : String
  error_count : ℕ
  primary_error : String
  primary_severity : String
  combined_causes : List CauseOut
  individual_diagnoses : List DiagnosisResult
deriving DecidableEq, Repr

/-- The two non-raising result shapes of `diagnose_multiple_errors`. -/
inductive MultiDiagnosis where
  | no_errors (status message : String)
  | combined (c : CombinedDiagnosis)
deriving DecidableEq, Repr

/-- The cause-merging loop of `diagnose_multiple_errors` (lines 157–168):
dict keyed by cause `id`, first insertion keeps the cause, later
occurrences keep the maximum `adjusted_probability`. -/
def merge_combined_causes (causes : List CauseOut) : List CauseOut :=
  causes.foldl (fun acc c =>
    if (acc.map (fun c0 => c0.id)).contains c.id then
      acc.map (fun c0 =>
        if c0.id == c.id then
          { c0 with
            adjusted_probability := max c0.adjusted_probability c.adjusted_probability }
        else c0)
    else acc ++ [c]) []

/-- `diagnose_multiple_errors` (diagnostic_service.py lines 123–183).
`max(diagnoses, key=...)` returns the first diagnosis of maximal severity
rank, the rank of a result without a `severity` key defaulting to
`"low"`; the subsequent unguarded `primary_diagnosis["severity"]`
subscript raises `KeyError` when that winner is a `status="unknown"`
result, modelled by the `Except.error`. -/
def diagnose_multiple_errors (error_codes : List String)
    (runtime_state : Option RuntimeState := none) :
    Except String MultiDiagnosis :=
  match error_codes with
  | [] => .ok (.no_errors "no_errors" "No error codes provided for diagnosis")
  | ec0 :: rest =>
      let diagnoses :=
        (ec0 :: rest).map (fun ec => diagnose_single_error ec runtime_state)
      let rank := fun (d : DiagnosisResult) => severity_rank (d.severity.getD "low")
      let primary_diagnosis :=
        diagnoses.tail.foldl
          (fun best d => if rank best < rank d then d else best)
          (diagnose_single_error ec0 runtime_state)
      match primary_diagnosis.severity with
      | none => .error "KeyError: severity"
      | some primary_severity =>
          let combined_causes := diagnoses.flatMap (fun d => d.possible_causes)
          let sorted_causes :=
            (merge_combined_causes combined_causes).insertionSort cause_ge
          .ok (.combined
            { status := "diagnosed"
              error_count := error_codes.length
              primary_error := primary_diagnosis.error_code
              primary_severity := primary_severity
              combined_causes := sorted_causes.take 5
              individual_diagnoses := diagnoses })

/-! ## Fleet data model (`app/models/fleet.py`) -/

/-- `RobotState` (fleet.py lines 25–39).  `last_seen` is epoch seconds. -/
structure RobotState where
  robot_id : String
  model : String
  firmware : String
  errors : List String := []
  last_seen : Option Int := none
  location : Option String := none
  battery_level : Option ℚ := none
  active_topics : List String := []
  parameters : List (String × String) := []
deriving DecidableEq, Repr

/-- `FleetState` (fleet.py lines 42–69); the optional timestamp is never
read by the reasoning core and is omitted. -/
structure FleetState where
  robots : List RobotState
deriving DecidableEq, Repr

/-- `FleetState.get_robots_with_error` (fleet.py lines 59–61). -/
def FleetState.get_robots_with_error (fleet : FleetState) (error_code : String) :
    List RobotState :=
  fleet.robots.filter (fun r => r.errors.contains error_code)

/-- `ErrorStatistics` (fleet.py lines 97–105). -/
structure ErrorStatistics where
  error_code : String
  total_occurrences : ℕ
  affected_robots : ℕ
  models_affected : List String
  firmware_distribution : List (String × ℕ)
  occurrence_rate : ℚ
  severity : String
deriving DecidableEq, Repr

/-! ## Fleet diagnostic service (`app/services/fleet_diagnostic_service.py`) -/

/-- The guarded rate `a / b if b > 0 else 0` used by every occurrence-rate
computation in the service. -/
def safe_rate (num den : ℕ) : ℚ :=
  if 0 < den then (num : ℚ) / (den : ℚ) else 0

/-- The severity thresholds of `_analyze_error_distribution` (lines
225–230): `rate ≥ 0.5 → high`, `rate ≥ 0.2 → medium`, else `low`. -/
def severity_of_rate (rate : ℚ) : String :=
  if (0.5 : ℚ) ≤ rate then "high" else if (0.2 : ℚ) ≤ rate then "medium" else "low"

/-- First-occurrence deduplication; models a Python `set` built from a
list (the code only ever observes the cardinality and, for singletons, the
unique element). -/
def first_dedup {α : Type} [DecidableEq α] (l : List α) : List α :=
  l.foldl (fun acc a => if a ∈ acc then acc else acc ++ [a]) []

/-- `collections.Counter` over strings, as an association list keyed in
first-occurrence order. -/
def counter_list (l : List String) : List (String × ℕ) :=
  (first_dedup l).map (fun k => (k, l.count k))

/-- The `ErrorStatistics` entry built for one error code inside
`_analyze_error_distribution` (lines 213–240); `robot` is the device of
the `(error, robot)` pair that first triggered the entry. -/
def mk_error_statistics (fleet : FleetState) (error_code : String)
    (robot : RobotState) : ErrorStatistics :=
  let affected := fleet.get_robots_with_error error_code
  let total_same_model := (fleet.robots.filter (fun r => r.model == robot.model)).length
  let affected_same_model := (affected.filter (fun r => r.model == robot.model)).length
  let rate := safe_rate affected_same_model total_same_model
  { error_code := error_code
    total_occurrences := affected.length
    affected_robots := affected.length
    models_affected := first_dedup (affected.map (fun r => r.model))
    firmware_distribution := counter_list (affected.map (fun r => r.firmware))
    occurrence_rate := rate
    severity := severity_of_rate rate }

/-- The accumulation loop of `_analyze_error_distribution` (lines
211–240): one pass over all `(error, robot)` pairs, creating a statistics
entry the first time each error code is seen. -/
def accumulate_error_stats (fleet : FleetState) :
    List (String × RobotState) → List (String × ErrorStatistics) →
    List (String × ErrorStatistics)
  | [], stats => stats
  | (error_code, robot) :: rest, stats =>
      if error_code ∈ stats.map Prod.fst then
        accumulate_error_stats fleet rest stats
      else
        accumulate_error_stats fleet rest
          (stats ++ [(error_code, mk_error_statistics fleet error_code robot)])

/-- `_analyze_error_distribution` (fleet_diagnostic_service.py lines
197–242), as an insertion-ordered association list (the Python dict). -/
def analyze_error_distribution (fleet : FleetState) :
    List (String × ErrorStatistics) :=
  if fleet.robots.isEmpty then []
  else
    let all_errors :=
      fleet.robots.flatMap (fun robot => robot.errors.map (fun e => (e, robot)))
    accumulate_error_stats fleet all_errors []

/-- One candidate root cause (`_analyze_root_cause` lines 338–380).  The
heterogeneous Python dicts are flattened into one record with optional
fields; the presentational `affected_ratio`, `description` and
`time_window` strings are omitted. -/
structure RootCause where
  type : String
  confidence : ℚ
  firmware_version : Option String := none
  occurrence_rate : Option ℚ := none
  model : Option String := none
  location : Option String := none
deriving DecidableEq, Repr

/-- The report of `_analyze_root_cause` (lines 312–390); the
`common_features` sub-dict is flattened into the first three fields. -/
structure RootCauseReport where
  models : List String
  firmware_versions : List String
  locations : List String
  possible_root_causes : List RootCause
  most_likely_cause : RootCause
deriving DecidableEq, Repr

/-- The firmware block of `_analyze_root_cause` (lines 330–344): appended
when exactly one distinct firmware version is present among the affected
devices, carrying that firmware's own guarded occurrence rate. -/
def firmware_root_causes (fleet : FleetState)
    (affected_robots : List RobotState) : List RootCause :=
  if (first_dedup (affected_robots.map (fun r => r.firmware))).length = 1 then
    let firmware := (first_dedup (affected_robots.map (fun r => r.firmware))).headI
    let total_with_firmware :=
      (fleet.robots.filter (fun r => r.firmware == firmware)).length
    let affected_with_firmware :=
      (affected_robots.filter (fun r => r.firmware == firmware)).length
    let rate := safe_rate affected_with_firmware total_with_firmware
    [ { type := "firmware"
        firmware_version := some firmware
        occurrence_rate := some rate
        confidence := min 0.9 (0.5 + rate * 0.5) } ]
  else []

/-- The model block of `_analyze_root_cause` (lines 346–354). -/
def model_root_causes (affected_robots : List RobotState) : List RootCause :=
  if (first_dedup (affected_robots.map (fun r => r.model))).length = 1 then
    [ { type := "model_specific"
        model := some (first_dedup (affected_robots.map (fun r => r.model))).headI
        confidence := 0.7 } ]
  else []

/-- The Python truthiness filter `if r.location` of
`_analyze_root_cause` line 326: a location participates only when it is
neither `None` nor the empty string. -/
def truthy_location (r : RobotState) : Option String :=
  match r.location with
  | some l => if l ≠ "" then some l else none
  | none => none

/-- The location block of `_analyze_root_cause` (lines 356–364): only
devices whose location is truthy (present and non-empty) participate. -/
def location_root_causes (affected_robots : List RobotState) : List RootCause :=
  if (first_dedup (affected_robots.filterMap truthy_location)).length = 1 then
    [ { type := "environmental"
        location :=
          some (first_dedup (affected_robots.filterMap truthy_location)).headI
        confidence := 0.6 } ]
  else []

/-- The temporal block of `_analyze_root_cause` (lines 366–380): appended
when every affected device reports a `last_seen` timestamp and the span
`max − min` is under one hour (3600 s). -/
def temporal_root_causes (affected_robots : List RobotState) : List RootCause :=
  if affected_robots.all (fun r => r.last_seen.isSome) then
    let timestamps := affected_robots.filterMap (fun r => r.last_seen)
    if !timestamps.isEmpty &&
        timestamps.foldl max timestamps.headI -
          timestamps.foldl min timestamps.headI < 3600 then
      [ { type := "temporal", confidence := 0.8 } ]
    else []
  else []

/-- `_analyze_root_cause` (fleet_diagnostic_service.py lines 312–390).
The source appends candidates into one list in the fixed order firmware →
model → location → temporal, rendered here as the concatenation of the
four candidate blocks in that order; `most_likely_cause` is the first
appended candidate, or the `unknown`/0.3 fallback when none was. -/
def analyze_root_cause (fleet : FleetState) (error_code : String) :
    RootCauseReport :=
  let affected_robots := fleet.get_robots_with_error error_code
  if affected_robots.isEmpty then
    { models := [], firmware_versions := [], locations := []
      possible_root_causes := []
      most_likely_cause := { type := "unknown", confidence := 0.0 } }
  else
    let root_causes :=
      firmware_root_causes fleet affected_robots ++
        model_root_causes affected_robots ++
        location_root_causes affected_robots ++
        temporal_root_causes affected_robots
    { models := first_dedup (affected_robots.map (fun r => r.model))
      firmware_versions := first_dedup (affected_robots.map (fun r => r.firmware))
      locations := first_dedup (affected_robots.filterMap truthy_location)
      possible_root_causes := root_causes
      most_likely_cause := root_causes.headD { type := "unknown", confidence := 0.3 } }

/-- One entry of the `systemic_issues` list (lines 258–267). -/
structure SystemicIssue where
  error_code : String
  affected_robots : ℕ
  occurrence_rate : ℚ
  models_affected : List String
  firmware_distribution : List (String × ℕ)
  severity : String
  root_cause_analysis : RootCauseReport
  confidence : ℚ
deriving DecidableEq, Repr

/-- The descending sort order of `_identify_systemic_issues` (lines
270–274): the lexicographic key (severity rank, affected_robots,
occurrence_rate) of `b` is at most that of `a`. -/
def systemic_ge (a b : SystemicIssue) : Prop :=
  severity_rank b.severity < severity_rank a.severity ∨
    (severity_rank b.severity = severity_rank a.severity ∧
      (b.affected_robots < a.affected_robots ∨
        (b.affected_robots = a.affected_robots ∧
          b.occurrence_rate ≤ a.occurrence_rate)))

instance : DecidableRel systemic_ge := fun a b =>
  inferInstanceAs (Decidable (severity_rank b.severity < severity_rank a.severity ∨
    (severity_rank b.severity = severity_rank a.severity ∧
      (b.affected_robots < a.affected_robots ∨
        (b.affected_robots = a.affected_robots ∧
          b.occurrence_rate ≤ a.occurrence_rate)))))

instance : IsTotal SystemicIssue systemic_ge := ⟨by
  intro a b
  unfold systemic_ge
  rcases Nat.lt_trichotomy (severity_rank b.severity) (severity_rank a.severity)
    with h | h | h
  · exact Or.inl (Or.inl h)
  · rcases Nat.lt_trichotomy b.affected_robots a.affected_robots with h2 | h2 | h2
    · exact Or.inl (Or.inr ⟨h, Or.inl h2⟩)
    · rcases le_total b.occurrence_rate a.occurrence_rate with h3 | h3
      · exact Or.inl (Or.inr ⟨h, Or.inr ⟨h2, h3⟩⟩)
      · exact Or.inr (Or.inr ⟨h.symm, Or.inr ⟨h2.symm, h3⟩⟩)
    · exact Or.inr (Or.inr ⟨h.symm, Or.inl h2⟩)
  · exact Or.inr (Or.inl h)⟩

instance : IsTrans SystemicIssue systemic_ge := ⟨by
  intro a b c hab hbc
  unfold systemic_ge at hab hbc ⊢
  rcases hab with h1 | ⟨h1, h1'⟩
  · rcases hbc with h2 | ⟨h2, _⟩
    · exact Or.inl (lt_trans h2 h1)
    · exact Or.inl (h2 ▸ h1)
  · rcases hbc with h2 | ⟨h2, h2'⟩
    · exact Or.inl (h1 ▸ h2)
    · refine Or.inr ⟨h2.trans h1, ?_⟩
      rcases h1' with g1 | ⟨g1, g1'⟩
      · rcases h2' with g2 | ⟨g2, _⟩
        · exact Or.inl (lt_trans g2 g1)
        · exact Or.inl (g2 ▸ g1)
      · rcases h2' with g2 | ⟨g2, g2'⟩
        · exact Or.inl (g1 ▸ g2)
        · exact Or.inr ⟨g2.trans g1, le_trans g2' g1'⟩⟩

/-- `_identify_systemic_issues` (fleet_diagnostic_service.py lines
244–276). -/
def identify_systemic_issues (fleet : FleetState)
    (error_stats : List (String × ErrorStatistics)) : List SystemicIssue :=
  let systemic_issues := error_stats.filterMap (fun p =>
    if 3 ≤ p.2.affected_robots ∨ (0.4 : ℚ) ≤ p.2.occurrence_rate ∨
        1 < p.2.models_affected.length then
      some
        { error_code := p.1
          affected_robots := p.2.affected_robots
          occurrence_rate := p.2.occurrence_rate
          models_affected := p.2.models_affected
          firmware_distribution := p.2.firmware_distribution
          severity := p.2.severity
          root_cause_analysis := analyze_root_cause fleet p.1
          confidence := min 0.9 (0.3 + p.2.occurrence_rate * 0.7) }
    else none)
  systemic_issues.insertionSort systemic_ge

/-- One entry of the `single_unit_issues` list (lines 287–302). -/
structure SingleUnitIssue where
  robot_id : String
  error_code : String
  model : String
  firmware : String
  location : Option String
  battery_level : Option ℚ
  severity : String
  possible_causes : List String
deriving DecidableEq, Repr

/-- The descending sort order of `_identify_single_unit_issues` (lines
305–308): severity rank only. -/
def single_unit_ge (a b : SingleUnitIssue) : Prop :=
  severity_rank b.severity ≤ severity_rank a.severity

instance : DecidableRel single_unit_ge := fun a b =>
  inferInstanceAs (Decidable (severity_rank b.severity ≤ severity_rank a.severity))

instance : IsTotal SingleUnitIssue single_unit_ge :=
  ⟨fun a b => le_total (severity_rank b.severity) (severity_rank a.severity)⟩

instance : IsTrans SingleUnitIssue single_unit_ge :=
  ⟨fun _ _ _ hab hbc => le_trans hbc hab⟩

instance : Inhabited RobotState :=
  ⟨{ robot_id := "", model := "", firmware := "" }⟩

/-- `_identify_single_unit_issues` (fleet_diagnostic_service.py lines
278–310).  The Python `get_robots_with_error(...)[0]` subscript is `headI`
here: for statistics produced by the aggregator the list is never empty
(an entry with `affected_robots == 1` always has its robot in the fleet). -/
def identify_single_unit_issues (fleet : FleetState)
    (error_stats : List (String × ErrorStatistics)) : List SingleUnitIssue :=
  let single_unit_issues := error_stats.filterMap (fun p =>
    if p.2.affected_robots = 1 then
      some
        { robot_id := (fleet.get_robots_with_error p.1).headI.robot_id
          error_code := p.1
          model := (fleet.get_robots_with_error p.1).headI.model
          firmware := (fleet.get_robots_with_error p.1).headI.firmware
          location := (fleet.get_robots_with_error p.1).headI.location
          battery_level := (fleet.get_robots_with_error p.1).headI.battery_level
          severity := p.2.severity
          possible_causes :=
            [ "硬件故障", "传感器标定偏移", "设备特定配置错误"
            , "安装位置问题", "环境干扰" ] }
    else none)
  single_unit_issues.insertionSort single_unit_ge

/-- The two classified-issue lists of `diagnose_fleet` (lines 66–72): the
aggregation feeding both classifiers.  The surrounding summary,
recommendation and report strings are presentational and omitted. -/
structure FleetDiagnosisLists where
  systemic_issues : List SystemicIssue
  single_unit_issues : List SingleUnitIssue
deriving DecidableEq, Repr

/-- The classification pipeline of `diagnose_fleet`
(fleet_diagnostic_service.py lines 66–72). -/
def diagnose_fleet_issues (fleet : FleetState) : FleetDiagnosisLists :=
  let error_analysis := analyze_error_distribution fleet
  { systemic_issues := identify_systemic_issues fleet error_analysis
    single_unit_issues := identify_single_unit_issues fleet error_analysis }

/-! ## Retrieval-result merging (`app/services/query_service.py`) -/

/-- One retrieval result as observed by the merger: its `id` key (absent
or empty ids are Python-falsy), its similarity `score`, and an opaque
payload standing for the remaining metadata. -/
structure SearchResult where
  id : Option String
  score : ℚ
  payload : String := ""
deriving DecidableEq, Repr

/-- Descending order on `score`, the key of the
`merged.sort(key=..., reverse=True)`. -/
def result_ge (a b : SearchResult) : Prop := b.score ≤ a.score

instance : DecidableRel result_ge := fun a b =>
  inferInstanceAs (Decidable (b.score ≤ a.score))

instance : IsTotal SearchResult result_ge :=
  ⟨fun a b => le_total b.score a.score⟩

instance : IsTrans SearchResult result_ge :=
  ⟨fun _ _ _ hab hbc => le_trans hbc hab⟩

/-- The deduplication loop of `_merge_and_deduplicate_results` (lines
159–174) over the concatenation of the primary and secondary lists, with
`seen` the set of already-kept ids: a result is kept when its id is truthy
(`result.get("id")` neither missing nor `""`) and not yet seen. -/
def dedup_by_seen (seen : List String) : List SearchResult → List SearchResult
  | [] => []
  | r :: rest =>
      match r.id with
      | some i =>
          if i ≠ "" ∧ i ∉ seen then r :: dedup_by_seen (i :: seen) rest
          else dedup_by_seen seen rest
      | none => dedup_by_seen seen rest

/-- `_merge_and_deduplicate_results` (query_service.py lines 157–179):
deduplicate primary then secondary results by id, sort descending by
score, truncate to 10. -/
def merge_and_deduplicate_results (primary_results secondary_results : List SearchResult) :
    List SearchResult :=
  (dedup_by_seen [] (primary_results ++ secondary_results)).insertionSort result_ge
    |>.take 10

/-- The confidence computation of `query_with_runtime` (query_service.py
line 84): `all_results[0]["score"] if all_results else 0.0`. -/
def query_confidence (all_results : List SearchResult) : ℚ :=
  match all_results with
  | [] => 0.0
  | r :: _ => r.score

/-! ## Concrete fixtures used by witnesses and counterexamples -/

/-- A fleet with a single device carrying `E201`: its per-model occurrence
rate is `1/1 = 1`. -/
def fleet_one_robot : FleetState :=
  ⟨[ { robot_id := "r1", model := "A1", firmware := "v1", errors := ["E201"] } ]⟩

/-- Three same-model devices, exactly one carrying `E301`
(rate `1/3 < 0.4`). -/
def fleet_lone_issue : FleetState :=
  ⟨[ { robot_id := "r1", model := "A1", firmware := "v1", errors := ["E301"] }
   , { robot_id := "r2", model := "A1", firmware := "v1" }
   , { robot_id := "r3", model := "A1", firmware := "v1" } ]⟩

/-- The aggregator entry for `E301` in `fleet_lone_issue`. -/
def stats_lone_issue : ErrorStatistics :=
  { error_code := "E301", total_occurrences := 1, affected_robots := 1
    models_affected := ["A1"], firmware_distribution := [("v1", 1)]
    occurrence_rate := mkRat 1 3, severity := "medium" }

/-- The aggregator entry for `E201` in `fleet_one_robot`. -/
def stats_one_robot : ErrorStatistics :=
  { error_code := "E201", total_occurrences := 1, affected_robots := 1
    models_affected := ["A1"], firmware_distribution := [("v1", 1)]
    occurrence_rate := 1, severity := "high" }

/-- Six same-model devices, two carrying `E101` (rate `2/6 = 1/3 < 0.4`). -/
def fleet_pair_issue : FleetState :=
  ⟨[ { robot_id := "r1", model := "A1", firmware := "v1", errors := ["E101"] }
   , { robot_id := "r2", model := "A1", firmware := "v1", errors := ["E101"] }
   , { robot_id := "r3", model := "A1", firmware := "v1" }
   , { robot_id := "r4", model := "A1", firmware := "v1" }
   , { robot_id := "r5", model := "A1", firmware := "v1" }
   , { robot_id := "r6", model := "A1", firmware := "v1" } ]⟩

/-- The aggregator entry for `E101` in `fleet_pair_issue`. -/
def stats_pair_issue : ErrorStatistics :=
  { error_code := "E101", total_occurrences := 2, affected_robots := 2
    models_affected := ["A1"], firmware_distribution := [("v1", 2)]
    occurrence_rate := mkRat 1 3, severity := "medium" }

/-- Three same-model devices all carrying `E201` (rate 1, systemic). -/
def fleet_systemic : FleetState :=
  ⟨[ { robot_id := "r1", model := "A1", firmware := "v2.1", errors := ["E201"] }
   , { robot_id := "r2", model := "A1", firmware := "v2.1", errors := ["E201"] }
   , { robot_id := "r3", model := "A1", firmware := "v2.1", errors := ["E201"] } ]⟩

instance : Inhabited SystemicIssue :=
  ⟨{ error_code := "", affected_robots := 0, occurrence_rate := 0
     models_affected := [], firmware_distribution := [], severity := ""
     root_cause_analysis :=
       { models := [], firmware_versions := [], locations := []
         possible_root_causes := []
         most_likely_cause := { type := "", confidence := 0 } }
     confidence := 0 }⟩

/-- The first systemic issue classified for `fleet_systemic`. -/
def systemic_issue_w : SystemicIssue :=
  (identify_systemic_issues fleet_systemic
    (analyze_error_distribution fleet_systemic)).headI

/-- Spec Scenario E: both of the two devices on firmware `v2.1` carry
`E201`, so the firmware candidate's own rate is `2/2 = 1`. -/
def fleet_scenario_e : FleetState :=
  ⟨[ { robot_id := "r1", model := "A1", firmware := "v2.1", errors := ["E201"] }
   , { robot_id := "r2", model := "A1", firmware := "v2.1", errors := ["E201"] } ]⟩

/-- A live-signal snapshot with a laser topic and an emergency-stop
parameter. -/
def runtime_w : RuntimeState :=
  { robot_id := "agv"
    active_topics := ["/laser_scanner", "/battery"]
    parameters := [("emergency_stop", "active")] }

/-- The laser cause of `E201` after the `×1.3` boost (`0.6 × 1.3 = 0.78`,
inside the clamp). -/
def cause_w : CauseOut :=
  { id := "laser_triggered"
    description := "Safety laser scanner detected obstacle in protection field"
    check := "Check laser scanner field status and clear any obstacles"
    probability := 0.6
    adjusted_probability := 0.78 }

/-- Primary retrieval results: the top-score one has no id. -/
def primary_w : List SearchResult :=
  [ { id := some "a", score := 0.9 }, { id := none, score := 0.99 } ]

/-- Secondary retrieval results: a duplicate of `"a"` and a fresh id. -/
def secondary_w : List SearchResult :=
  [ { id := some "a", score := 0.5 }, { id := some "b", score := 0.7 } ]

/-- The surviving copy of result `"a"` (the first occurrence). -/
def result_w : SearchResult := { id := some "a", score := 0.9 }

/-- A primary list whose highest-score result lacks an id. -/
def primary_x : List SearchResult :=
  [ { id := none, score := 0.99 }, { id := some "doc1", score := 0.5 } ]

/-- The result that survives the merge of `primary_x` with nothing. -/
def result_x : SearchResult := { id := some "doc1", score := 0.5 }

/-! ## Helper lemmas -/

theorem safe_rate_nonneg (num den : ℕ) : 0 ≤ safe_rate num den := by
  unfold safe_rate
  split
  · positivity
  · exact le_refl 0

theorem safe_rate_le_one {num den : ℕ} (h : num ≤ den) : safe_rate num den ≤ 1 := by
  unfold safe_rate
  split
  · rename_i hden
    rw [div_le_one (by exact_mod_cast hden)]
    exact_mod_cast h
  · exact zero_le_one

theorem safe_rate_zero_den (num : ℕ) : safe_rate num 0 = 0 := rfl

theorem filter_filter_length_le {α : Type} (l : List α) (p q : α → Bool) :
    ((l.filter p).filter q).length ≤ (l.filter q).length :=
  ((l.filter_sublist (p := p)).filter q).length_le

theorem first_dedup_length_le {α : Type} [DecidableEq α] (l : List α) :
    (first_dedup l).length ≤ l.length := by
  have key : ∀ (l : List α) (acc : List α),
      (l.foldl (fun acc a => if a ∈ acc then acc else acc ++ [a]) acc).length ≤
        acc.length + l.length := by
    intro l
    induction l with
    | nil => intro acc; simp
    | cons a tl ih =>
        intro acc
        simp only [List.foldl_cons]
        refine le_trans (ih _) ?_
        split
        · simp only [List.length_cons]; omega
        · simp only [List.length_append, List.length_cons, List.length_nil]; omega
  simpa using key l []

theorem assoc_nodup_eq {α β : Type} {l : List (α × β)}
    (h : (l.map Prod.fst).Nodup) {a : α} {b c : β}
    (h1 : (a, b) ∈ l) (h2 : (a, c) ∈ l) : b = c := by
  induction l with
  | nil => cases h1
  | cons hd tl ih =>
      simp only [List.map_cons, List.nodup_cons] at h
      rcases List.mem_cons.mp h1 with e1 | m1
      · rcases List.mem_cons.mp h2 with e2 | m2
        · exact congrArg Prod.snd (e1.trans e2.symm)
        · exfalso
          have ha : hd.1 = a := by rw [← e1]
          exact h.1 (ha ▸ List.mem_map.mpr ⟨(a, c), m2, rfl⟩)
      · rcases List.mem_cons.mp h2 with e2 | m2
        · exfalso
          have ha : hd.1 = a := by rw [← e2]
          exact h.1 (ha ▸ List.mem_map.mpr ⟨(a, b), m1, rfl⟩)
        · exact ih h.2 m1 m2

theorem mk_error_statistics_occurrence_rate (fleet : FleetState) (ec : String)
    (robot : RobotState) :
    (mk_error_statistics fleet ec robot).occurrence_rate =
      safe_rate
        (((fleet.get_robots_with_error ec).filter
            (fun r => r.model == robot.model)).length)
        ((fleet.robots.filter (fun r => r.model == robot.model)).length) := rfl

theorem mk_error_statistics_affected (fleet : FleetState) (ec : String)
    (robot : RobotState) :
    (mk_error_statistics fleet ec robot).affected_robots =
      (fleet.get_robots_with_error ec).length := rfl

theorem mk_error_statistics_models (fleet : FleetState) (ec : String)
    (robot : RobotState) :
    (mk_error_statistics fleet ec robot).models_affected =
      first_dedup ((fleet.get_robots_with_error ec).map (fun r => r.model)) := rfl

theorem accumulate_error_stats_mem (fleet : FleetState) :
    ∀ (pairs : List (String × RobotState)) (acc : List (String × ErrorStatistics))
      (p : String × ErrorStatistics), p ∈ accumulate_error_stats fleet pairs acc →
      p ∈ acc ∨ ∃ robot, p.2 = mk_error_statistics fleet p.1 robot := by
  intro pairs
  induction pairs with
  | nil => intro acc p hp; exact Or.inl hp
  | cons hd tl ih =>
      intro acc p hp
      obtain ⟨ec, robot⟩ := hd
      unfold accumulate_error_stats at hp
      split at hp
      · exact ih acc p hp
      · rcases ih _ p hp with h' | h'
        · rcases List.mem_append.mp h' with h'' | h''
          · exact Or.inl h''
          · rcases List.mem_singleton.mp h'' with rfl
            exact Or.inr ⟨robot, rfl⟩
        · exact Or.inr h'

theorem analyze_error_distribution_mem {fleet : FleetState}
    {p : String × ErrorStatistics} (h : p ∈ analyze_error_distribution fleet) :
    ∃ robot, p.2 = mk_error_statistics fleet p.1 robot := by
  unfold analyze_error_distribution at h
  split at h
  · cases h
  · rcases accumulate_error_stats_mem fleet _ [] p h with h' | h'
    · cases h'
    · exact h'

theorem accumulate_error_stats_keys_nodup (fleet : FleetState) :
    ∀ (pairs : List (String × RobotState)) (acc : List (String × ErrorStatistics)),
      (acc.map Prod.fst).Nodup →
      ((accumulate_error_stats fleet pairs acc).map Prod.fst).Nodup := by
  intro pairs
  induction pairs with
  | nil => intro acc h; exact h
  | cons hd tl ih =>
      intro acc h
      obtain ⟨ec, robot⟩ := hd
      unfold accumulate_error_stats
      split
      · exact ih acc h
      · refine ih _ ?_
        rename_i hnotin
        rw [List.map_append, List.nodup_append]
        refine ⟨h, by simp, ?_⟩
        intro a ha
        simp only [List.map_cons, List.map_nil, List.mem_singleton]
        intro hb
        rcases hb with rfl
        exact hnotin ha

theorem analyze_error_distribution_keys_nodup (fleet : FleetState) :
    ((analyze_error_distribution fleet).map Prod.fst).Nodup := by
  unfold analyze_error_distribution
  split
  · simp
  · exact accumulate_error_stats_keys_nodup fleet _ [] (by simp)

theorem aggregator_models_le {fleet : FleetState} {ec : String}
    {st : ErrorStatistics} (h : (ec, st) ∈ analyze_error_distribution fleet) :
    st.models_affected.length ≤ st.affected_robots := by
  obtain ⟨robot, hrobot⟩ := analyze_error_distribution_mem h
  have hst : st = mk_error_statistics fleet ec robot := hrobot
  rw [hst, mk_error_statistics_models, mk_error_statistics_affected]
  refine le_trans (first_dedup_length_le _) ?_
  simp

theorem aggregator_rate_bounds {fleet : FleetState} {ec : String}
    {st : ErrorStatistics} (h : (ec, st) ∈ analyze_error_distribution fleet) :
    0 ≤ st.occurrence_rate ∧ st.occurrence_rate ≤ 1 := by
  obtain ⟨robot, hrobot⟩ := analyze_error_distribution_mem h
  have hst : st = mk_error_statistics fleet ec robot := hrobot
  rw [hst, mk_error_statistics_occurrence_rate]
  exact ⟨safe_rate_nonneg _ _, safe_rate_le_one (filter_filter_length_le _ _ _)⟩

theorem firmware_root_causes_bounds {fleet : FleetState} {error_code : String}
    {c : RootCause}
    (hc : c ∈ firmware_root_causes fleet (fleet.get_robots_with_error error_code))
    {r : ℚ} (hr : c.occurrence_rate = some r) : 0 ≤ r ∧ r ≤ 1 := by
  unfold firmware_root_causes at hc
  split at hc
  · rcases List.mem_singleton.mp hc with rfl
    simp only [Option.some.injEq] at hr
    rw [← hr]
    exact ⟨safe_rate_nonneg _ _, safe_rate_le_one (filter_filter_length_le _ _ _)⟩
  · cases hc

theorem model_root_causes_rate_none {l : List RobotState} {c : RootCause}
    (hc : c ∈ model_root_causes l) : c.occurrence_rate = none := by
  unfold model_root_causes at hc
  split at hc
  · rcases List.mem_singleton.mp hc with rfl; rfl
  · cases hc

theorem location_root_causes_rate_none {l : List RobotState} {c : RootCause}
    (hc : c ∈ location_root_causes l) : c.occurrence_rate = none := by
  unfold location_root_causes at hc
  split at hc
  · rcases List.mem_singleton.mp hc with rfl; rfl
  · cases hc

theorem temporal_root_causes_rate_none {l : List RobotState} {c : RootCause}
    (hc : c ∈ temporal_root_causes l) : c.occurrence_rate = none := by
  unfold temporal_root_causes at hc
  split at hc
  · dsimp only at hc
    split at hc
    · rcases List.mem_singleton.mp hc with rfl; rfl
    · cases hc
  · cases hc

theorem identify_systemic_issues_mem {fleet : FleetState}
    {stats : List (String × ErrorStatistics)} {i : SystemicIssue} :
    i ∈ identify_systemic_issues fleet stats ↔
      ∃ p ∈ stats,
        (3 ≤ p.2.affected_robots ∨ (0.4 : ℚ) ≤ p.2.occurrence_rate ∨
          1 < p.2.models_affected.length) ∧
        i = { error_code := p.1
              affected_robots := p.2.affected_robots
              occurrence_rate := p.2.occurrence_rate
              models_affected := p.2.models_affected
              firmware_distribution := p.2.firmware_distribution
              severity := p.2.severity
              root_cause_analysis := analyze_root_cause fleet p.1
              confidence := min 0.9 (0.3 + p.2.occurrence_rate * 0.7) } := by
  unfold identify_systemic_issues
  rw [List.mem_insertionSort, List.mem_filterMap]
  constructor
  · rintro ⟨p, hp, hfp⟩
    refine ⟨p, hp, ?_⟩
    split at hfp
    · rename_i hcond
      cases hfp
      exact ⟨hcond, rfl⟩
    · cases hfp
  · rintro ⟨p, hp, hcond, rfl⟩
    exact ⟨p, hp, by rw [if_pos hcond]⟩

theorem identify_single_unit_issues_mem {fleet : FleetState}
    {stats : List (String × ErrorStatistics)} {i : SingleUnitIssue} :
    i ∈ identify_single_unit_issues fleet stats ↔
      ∃ p ∈ stats, p.2.affected_robots = 1 ∧
        i = { robot_id := (fleet.get_robots_with_error p.1).headI.robot_id
              error_code := p.1
              model := (fleet.get_robots_with_error p.1).headI.model
              firmware := (fleet.get_robots_with_error p.1).headI.firmware
              location := (fleet.get_robots_with_error p.1).headI.location
              battery_level := (fleet.get_robots_with_error p.1).headI.battery_level
              severity := p.2.severity
              possible_causes :=
                [ "硬件故障", "传感器标定偏移", "设备特定配置错误"
                , "安装位置问题", "环境干扰" ] } := by
  unfold identify_single_unit_issues
  rw [List.mem_insertionSort, List.mem_filterMap]
  constructor
  · rintro ⟨p, hp, hfp⟩
    refine ⟨p, hp, ?_⟩
    split at hfp
    · rename_i hcond
      cases hfp
      exact ⟨hcond, rfl⟩
    · cases hfp
  · rintro ⟨p, hp, hcond, rfl⟩
    exact ⟨p, hp, by rw [if_pos hcond]⟩

theorem systemic_error_code_mem {fleet : FleetState}
    {stats : List (String × ErrorStatistics)} {ec : String} :
    ec ∈ (identify_systemic_issues fleet stats).map (fun i => i.error_code) ↔
      ∃ st, (ec, st) ∈ stats ∧
        (3 ≤ st.affected_robots ∨ (0.4 : ℚ) ≤ st.occurrence_rate ∨
          1 < st.models_affected.length) := by
  rw [List.mem_map]
  constructor
  · rintro ⟨i, hi, rfl⟩
    obtain ⟨p, hp, hcond, rfl⟩ := identify_systemic_issues_mem.mp hi
    exact ⟨p.2, hp, hcond⟩
  · rintro ⟨st, hst, hcond⟩
    refine ⟨_, identify_systemic_issues_mem.mpr ⟨(ec, st), hst, hcond, rfl⟩, rfl⟩

theorem single_unit_error_code_mem {fleet : FleetState}
    {stats : List (String × ErrorStatistics)} {ec : String} :
    ec ∈ (identify_single_unit_issues fleet stats).map (fun i => i.error_code) ↔
      ∃ st, (ec, st) ∈ stats ∧ st.affected_robots = 1 := by
  rw [List.mem_map]
  constructor
  · rintro ⟨i, hi, rfl⟩
    obtain ⟨p, hp, hcond, rfl⟩ := identify_single_unit_issues_mem.mp hi
    exact ⟨p.2, hp, hcond⟩
  · rintro ⟨st, hst, hcond⟩
    refine ⟨_, identify_single_unit_issues_mem.mpr ⟨(ec, st), hst, hcond, rfl⟩, rfl⟩

theorem dedup_by_seen_spec :
    ∀ (l : List SearchResult) (seen : List String) (r : SearchResult),
      r ∈ dedup_by_seen seen l →
      r ∈ l ∧ (∃ i, r.id = some i ∧ i ≠ "" ∧ i ∉ seen) ∧
        l.find? (fun x => x.id == r.id) = some r := by
  intro l
  induction l with
  | nil => intro seen r hr; cases hr
  | cons x rest ih =>
      intro seen r hr
      rcases hx : x.id with _ | i
      · simp only [dedup_by_seen, hx] at hr
        obtain ⟨hmem, ⟨j, hj, hj0, hjseen⟩, hfind⟩ := ih seen r hr
        refine ⟨List.mem_cons_of_mem _ hmem, ⟨j, hj, hj0, hjseen⟩, ?_⟩
        rw [List.find?_cons_of_neg _ (by simp [hx, hj]), hfind]
      · simp only [dedup_by_seen, hx] at hr
        split at hr
        · rename_i hcond
          rcases List.mem_cons.mp hr with rfl | hr'
          · exact ⟨List.mem_cons_self _ _, ⟨i, hx, hcond.1, hcond.2⟩,
              List.find?_cons_of_pos _ (by simp)⟩
          · obtain ⟨hmem, ⟨j, hj, hj0, hjseen⟩, hfind⟩ := ih _ r hr'
            have hji : j ≠ i := fun e => hjseen (e ▸ List.mem_cons_self _ _)
            refine ⟨List.mem_cons_of_mem _ hmem,
              ⟨j, hj, hj0, fun hj' => hjseen (List.mem_cons_of_mem _ hj')⟩, ?_⟩
            rw [List.find?_cons_of_neg _ (by simp [hx, hj, hji.symm]), hfind]
        · rename_i hcond
          obtain ⟨hmem, ⟨j, hj, hj0, hjseen⟩, hfind⟩ := ih seen r hr
          have hji : j ≠ i := by
            intro e
            rcases not_and_or.mp hcond with h1 | h2
            · exact hj0 (e.trans (not_not.mp h1))
            · exact hjseen (e ▸ not_not.mp h2)
          refine ⟨List.mem_cons_of_mem _ hmem, ⟨j, hj, hj0, hjseen⟩, ?_⟩
          rw [List.find?_cons_of_neg _ (by simp [hx, hj, hji.symm]), hfind]

theorem dedup_by_seen_covers :
    ∀ (l : List SearchResult) (seen : List String) (r : SearchResult),
      r ∈ l → (∃ i, r.id = some i ∧ i ≠ "" ∧ i ∉ seen) →
      ∃ r' ∈ dedup_by_seen seen l, r'.id = r.id := by
  intro l
  induction l with
  | nil => intro seen r hr; cases hr
  | cons x rest ih =>
      intro seen r hr ⟨i, hi, hi0, hiseen⟩
      rcases hx : x.id with _ | ix
      · simp only [dedup_by_seen, hx]
        rcases List.mem_cons.mp hr with rfl | hr'
        · rw [hx] at hi; cases hi
        · exact ih seen r hr' ⟨i, hi, hi0, hiseen⟩
      · simp only [dedup_by_seen, hx]
        split
        · rename_i hcond
          by_cases hix : i = ix
          · exact ⟨x, List.mem_cons_self _ _, by rw [hx, hi, hix]⟩
          · rcases List.mem_cons.mp hr with rfl | hr'
            · rw [hx] at hi
              cases hi
              exact absurd rfl hix
            · obtain ⟨r', hr'', hid⟩ := ih (ix :: seen) r hr'
                ⟨i, hi, hi0, by
                  intro hmem
                  rcases List.mem_cons.mp hmem with h' | h'
                  · exact hix h'
                  · exact hiseen h'⟩
              exact ⟨r', List.mem_cons_of_mem _ hr'', hid⟩
        · rename_i hcond
          rcases List.mem_cons.mp hr with rfl | hr'
          · rw [hx] at hi
            cases hi
            exact absurd ⟨hi0, hiseen⟩ hcond
          · exact ih seen r hr' ⟨i, hi, hi0, hiseen⟩

theorem dedup_by_seen_ids_nodup :
    ∀ (l : List SearchResult) (seen : List String),
      ((dedup_by_seen seen l).filterMap (fun r => r.id)).Nodup := by
  intro l
  induction l with
  | nil => intro seen; simp [dedup_by_seen]
  | cons x rest ih =>
      intro seen
      rcases hx : x.id with _ | i
      · simp only [dedup_by_seen, hx]
        exact ih seen
      · simp only [dedup_by_seen, hx]
        split
        · rename_i hcond
          simp only [List.filterMap_cons, hx, List.nodup_cons]
          refine ⟨?_, ih _⟩
          intro hi
          obtain ⟨r, hr, hrid⟩ := List.mem_filterMap.mp hi
          obtain ⟨_, ⟨j, hj, _, hjseen⟩, _⟩ := dedup_by_seen_spec _ _ _ hr
          rw [hj] at hrid
          cases hrid
          exact hjseen (List.mem_cons_self _ _)
        · exact ih seen

/-! ## Claim theorems -/

/-- C1 (counterexample): in a fleet with a single device carrying `E201`,
the error has `affected_robots = 1` and occurrence rate `1 ≥ 0.4`, so
`diagnose_fleet` lists it in the systemic issues AND in the single-unit
issues — the two classifications are not mutually exclusive as claimed. -/
theorem C1_counterexample :
    (diagnose_fleet_issues fleet_one_robot).systemic_issues.map
        (fun i => (i.error_code, i.affected_robots)) = [("E201", 1)] ∧
    (diagnose_fleet_issues fleet_one_robot).single_unit_issues.map
        (fun i => i.error_code) = ["E201"] ∧
    (analyze_error_distribution fleet_one_robot).map
        (fun p => (p.1, p.2.occurrence_rate)) = [("E201", 1)] :=
  of_decide_eq_true (by with_unfolding_all rfl)

/-- C1 (amended): for aggregator-produced statistics, an error with
`affected_devices = 1` whose same-model occurrence rate is below `0.4` is
never classified systemic, and an error with `affected_devices ≠ 1` is
never classified single-unit; exclusivity can only fail for an error with
`affected_devices = 1` and `occurrence_rate ≥ 0.4`, which lands in both
lists. -/
theorem C1_amended_exclusivity (fleet : FleetState) (ec : String)
    (st : ErrorStatistics) (hmem : (ec, st) ∈ analyze_error_distribution fleet) :
    (st.affected_robots = 1 → st.occurrence_rate < 0.4 →
      ec ∉ (diagnose_fleet_issues fleet).systemic_issues.map
        (fun i => i.error_code)) ∧
    (st.affected_robots ≠ 1 →
      ec ∉ (diagnose_fleet_issues fleet).single_unit_issues.map
        (fun i => i.error_code)) := by
  constructor
  · intro h1 h2 hc
    obtain ⟨st', hmem', hcond⟩ := systemic_error_code_mem.mp hc
    have hst : st' = st :=
      assoc_nodup_eq (analyze_error_distribution_keys_nodup fleet) hmem' hmem
    rw [hst] at hcond
    rcases hcond with h | h | h
    · omega
    · exact absurd h (not_le.mpr h2)
    · have := aggregator_models_le hmem
      omega
  · intro h1 hc
    obtain ⟨st', hmem', hcond⟩ := single_unit_error_code_mem.mp hc
    have hst : st' = st :=
      assoc_nodup_eq (analyze_error_distribution_keys_nodup fleet) hmem' hmem
    rw [hst] at hcond
    exact h1 hcond

/-- C1 (witness): in `fleet_lone_issue`, error `E301` affects exactly one
of three same-model devices (rate `1/3 < 0.4`) and is therefore absent
from the systemic list. -/
theorem C1_amended_witness :
    "E301" ∉ (diagnose_fleet_issues fleet_lone_issue).systemic_issues.map
      (fun i => i.error_code) :=
  (C1_amended_exclusivity fleet_lone_issue "E301" stats_lone_issue
      (of_decide_eq_true (by with_unfolding_all rfl))).1
    rfl (of_decide_eq_true (by with_unfolding_all rfl))

/-- C2: an error code absent from the knowledge base gives a normal
`status="unknown"` result from `diagnose_single_error`, but
`diagnose_multiple_errors` then subscripts the missing `severity` key of
that result and raises `KeyError` — contradicting the never-raises
claim. -/
theorem C2_unknown_code_keyerror :
    (diagnose_single_error "E999" none).status = "unknown" ∧
    (diagnose_single_error "E999" none).possible_causes = [] ∧
    diagnose_multiple_errors ["E999"] none = Except.error "KeyError: severity" :=
  ⟨rfl, rfl, rfl⟩

/-- C3 (counterexample): with no live-signal snapshot, `diagnose_single_error`
returns `E201`'s causes in knowledge-base order `[0.6, 0.3, 0.2, 0.4]`,
which is not sorted descending by `adjusted_probability`. -/
theorem C3_counterexample :
    (diagnose_single_error "E201" none).possible_causes.map
        (fun c => c.adjusted_probability) = [0.6, 0.3, 0.2, 0.4] ∧
    ¬ List.Sorted (fun a b : ℚ => b ≤ a)
        ((diagnose_single_error "E201" none).possible_causes.map
          (fun c => c.adjusted_probability)) :=
  of_decide_eq_true (by with_unfolding_all rfl)

/-- C3 (amended): when a live-signal snapshot IS supplied, the
`possible_causes` list returned by `diagnose_single_error` is sorted
descending by `adjusted_probability` (for an unknown code the list is
empty); without a snapshot the causes stay in knowledge-base order, which
need not be sorted. -/
theorem C3_amended_sorted (error_code : String) (rs : RuntimeState) :
    List.Sorted (fun a b : ℚ => b ≤ a)
      ((diagnose_single_error error_code (some rs)).possible_causes.map
        (fun c => c.adjusted_probability)) := by
  unfold diagnose_single_error
  rcases get_fault_tree error_code with _ | tree
  · simp
  · refine List.Pairwise.map _ (fun a b h => h) ?_
    exact List.sorted_insertionSort cause_ge _

/-- C4: every occurrence-rate computation in the core — the per-error
same-model rate of the aggregation step and the per-firmware rate of
root-cause analysis — yields a value in `[0, 1]`; the guarded rate is
exactly `0` on a zero denominator, so no division error can occur. -/
theorem C4_rate_bounds :
    (∀ (fleet : FleetState) (p : String × ErrorStatistics),
        p ∈ analyze_error_distribution fleet →
        0 ≤ p.2.occurrence_rate ∧ p.2.occurrence_rate ≤ 1) ∧
    (∀ (fleet : FleetState) (error_code : String) (c : RootCause)
        (r : ℚ), c ∈ (analyze_root_cause fleet error_code).possible_root_causes →
        c.occurrence_rate = some r → 0 ≤ r ∧ r ≤ 1) ∧
    (∀ num : ℕ, safe_rate num 0 = 0) := by
  refine ⟨fun fleet p hp => aggregator_rate_bounds hp, ?_, fun num => rfl⟩
  intro fleet error_code c r hc hr
  unfold analyze_root_cause at hc
  dsimp only at hc
  split at hc
  · cases hc
  · simp only [List.mem_append] at hc
    rcases hc with ((hc | hc) | hc) | hc
    · exact firmware_root_causes_bounds hc hr
    · rw [model_root_causes_rate_none hc] at hr; cases hr
    · rw [location_root_causes_rate_none hc] at hr; cases hr
    · rw [temporal_root_causes_rate_none hc] at hr; cases hr

/-- C4 (witness): the single entry produced for `fleet_one_robot` has its
occurrence rate inside `[0, 1]`. -/
theorem C4_witness :
    0 ≤ stats_one_robot.occurrence_rate ∧ stats_one_robot.occurrence_rate ≤ 1 :=
  C4_rate_bounds.1 fleet_one_robot ("E201", stats_one_robot)
    (of_decide_eq_true (by with_unfolding_all rfl))

/-- C5: for any statistics map with distinct error-code keys, the systemic
list contains an error iff `affected_devices ≥ 3` or `occurrence_rate ≥
0.4` or more than one model is affected; each systemic issue carries
`confidence = min(0.9, 0.3 + occurrence_rate × 0.7)`; and the list is
sorted descending by the lexicographic triple (severity rank,
affected_devices, occurrence_rate). -/
theorem C5_classify_systemic (fleet : FleetState)
    (stats : List (String × ErrorStatistics))
    (hkeys : (stats.map Prod.fst).Nodup) :
    List.Sorted systemic_ge (identify_systemic_issues fleet stats) ∧
    (∀ i ∈ identify_systemic_issues fleet stats,
        i.confidence = min 0.9 (0.3 + i.occurrence_rate * 0.7)) ∧
    ∀ ec st, (ec, st) ∈ stats →
      ((3 ≤ st.affected_robots ∨ (0.4 : ℚ) ≤ st.occurrence_rate ∨
          1 < st.models_affected.length) ↔
        ec ∈ (identify_systemic_issues fleet stats).map (fun i => i.error_code)) := by
  refine ⟨List.sorted_insertionSort _ _, ?_, ?_⟩
  · intro i hi
    obtain ⟨p, hp, hcond, rfl⟩ := identify_systemic_issues_mem.mp hi
    rfl
  · intro ec st hmem
    constructor
    · intro hcond
      exact systemic_error_code_mem.mpr ⟨st, hmem, hcond⟩
    · intro hc
      obtain ⟨st', hmem', hcond⟩ := systemic_error_code_mem.mp hc
      rwa [assoc_nodup_eq hkeys hmem' hmem] at hcond

/-- C5 (witness): the systemic issue classified for `fleet_systemic`
carries the stated confidence formula. -/
theorem C5_witness :
    systemic_issue_w.confidence =
      min 0.9 (0.3 + systemic_issue_w.occurrence_rate * 0.7) :=
  (C5_classify_systemic fleet_systemic (analyze_error_distribution fleet_systemic)
      (of_decide_eq_true (by with_unfolding_all rfl))).2.1
    systemic_issue_w (of_decide_eq_true (by with_unfolding_all rfl))

/-- C6: for an error with at least one affected device, the root-cause
candidates are exactly the four guarded blocks in the fixed order
firmware (confidence `min(0.9, 0.5 + rate × 0.5)` with a guarded rate),
model_specific (0.7), environmental (0.6), temporal (0.8, when every
affected device reports `last_seen` and the span is under one hour); and
`most_likely_cause` is the first candidate in that order, falling back to
`unknown`/0.3 when no candidate was detected. -/
theorem C6_root_cause_precedence (fleet : FleetState) (error_code : String)
    (h : fleet.get_robots_with_error error_code ≠ []) :
    (analyze_root_cause fleet error_code).possible_root_causes =
      (if (first_dedup ((fleet.get_robots_with_error error_code).map
            (fun r => r.firmware))).length = 1 then
        [ { type := "firmware"
            firmware_version := some (first_dedup
              ((fleet.get_robots_with_error error_code).map
                (fun r => r.firmware))).headI
            occurrence_rate := some (safe_rate
              (((fleet.get_robots_with_error error_code).filter
                  (fun r => r.firmware == (first_dedup
                    ((fleet.get_robots_with_error error_code).map
                      (fun r => r.firmware))).headI)).length)
              ((fleet.robots.filter
                  (fun r => r.firmware == (first_dedup
                    ((fleet.get_robots_with_error error_code).map
                      (fun r => r.firmware))).headI)).length))
            confidence := min 0.9 (0.5 + safe_rate
              (((fleet.get_robots_with_error error_code).filter
                  (fun r => r.firmware == (first_dedup
                    ((fleet.get_robots_with_error error_code).map
                      (fun r => r.firmware))).headI)).length)
              ((fleet.robots.filter
                  (fun r => r.firmware == (first_dedup
                    ((fleet.get_robots_with_error error_code).map
                      (fun r => r.firmware))).headI)).length) * 0.5) } ]
      else []) ++
      (if (first_dedup ((fleet.get_robots_with_error error_code).map
            (fun r => r.model))).length = 1 then
        [ { type := "model_specific"
            model := some (first_dedup
              ((fleet.get_robots_with_error error_code).map
                (fun r => r.model))).headI
            confidence := 0.7 } ]
      else []) ++
      (if (first_dedup ((fleet.get_robots_with_error error_code).filterMap
            truthy_location)).length = 1 then
        [ { type := "environmental"
            location := some (first_dedup
              ((fleet.get_robots_with_error error_code).filterMap
                truthy_location)).headI
            confidence := 0.6 } ]
      else []) ++
      (if (fleet.get_robots_with_error error_code).all
            (fun r => r.last_seen.isSome) then
        (if !((fleet.get_robots_with_error error_code).filterMap
              (fun r => r.last_seen)).isEmpty &&
            ((fleet.get_robots_with_error error_code).filterMap
                (fun r => r.last_seen)).foldl max
                ((fleet.get_robots_with_error error_code).filterMap
                  (fun r => r.last_seen)).headI -
              ((fleet.get_robots_with_error error_code).filterMap
                  (fun r => r.last_seen)).foldl min
                ((fleet.get_robots_with_error error_code).filterMap
                  (fun r => r.last_seen)).headI < 3600 then
          [ { type := "temporal", confidence := 0.8 } ]
        else [])
      else []) ∧
    (analyze_root_cause fleet error_code).most_likely_cause =
      (analyze_root_cause fleet error_code).possible_root_causes.headD
        { type := "unknown", confidence := 0.3 } := by
  have hne : ((fleet.get_robots_with_error error_code).isEmpty = true) → False := by
    intro he
    exact h (List.isEmpty_iff.mp he)
  constructor
  · unfold analyze_root_cause
    rw [if_neg hne]
    unfold firmware_root_causes model_root_causes location_root_causes
      temporal_root_causes
    rfl
  · unfold analyze_root_cause
    rw [if_neg hne]

/-- C6 (witness): spec Scenario E — both devices on firmware `v2.1` carry
the error, the firmware candidate rate is `2/2 = 1`, and the most likely
cause is `firmware` with confidence `min(0.9, 0.5 + 1 × 0.5) = 0.9`. -/
theorem C6_witness :
    (analyze_root_cause fleet_scenario_e "E201").most_likely_cause =
      { type := "firmware", confidence := 0.9, firmware_version := some "v2.1"
        occurrence_rate := some 1 } := by
  have h := (C6_root_cause_precedence fleet_scenario_e "E201"
    (of_decide_eq_true (by with_unfolding_all rfl))).2
  rw [h]
  exact of_decide_eq_true (by with_unfolding_all rfl)

/-- C7: for a known error code and any supplied live-signal snapshot,
every adjusted probability emitted by `diagnose_single_error` lies in
`[0.1, 0.9]` after the keyword boosts, because of the final clamp. -/
theorem C7_clamp (error_code : String) (rs : RuntimeState) (tree : FaultTree)
    (h : get_fault_tree error_code = some tree) :
    ∀ c ∈ (diagnose_single_error error_code (some rs)).possible_causes,
      (0.1 : ℚ) ≤ c.adjusted_probability ∧ c.adjusted_probability ≤ 0.9 := by
  intro c hc
  unfold diagnose_single_error at hc
  rw [h] at hc
  unfold adjust_probabilities_with_runtime at hc
  dsimp only at hc
  rw [List.mem_insertionSort] at hc
  obtain ⟨c0, _, rfl⟩ := List.mem_map.mp hc
  dsimp only
  exact ⟨le_min (le_max_right _ _) (by norm_num), min_le_right _ _⟩

/-- C7 (witness): with a laser topic active, `E201`'s laser cause is
boosted to `0.6 × 1.3 = 0.78`, inside `[0.1, 0.9]`. -/
theorem C7_witness :
    (0.1 : ℚ) ≤ cause_w.adjusted_probability ∧
      cause_w.adjusted_probability ≤ 0.9 :=
  C7_clamp "E201" runtime_w fault_tree_E201
    (of_decide_eq_true (by with_unfolding_all rfl)) cause_w
    (of_decide_eq_true (by with_unfolding_all rfl))

/-- C8: the merger keeps only the first occurrence of each truthy result
id from the primary-then-secondary concatenation, sorts descending by
score, truncates to at most 10 entries, and the reported confidence is
the head score (0 for an empty list), which dominates every merged
score. -/
theorem C8_merge_contract (primary_results secondary_results : List SearchResult) :
    List.Sorted result_ge
      (merge_and_deduplicate_results primary_results secondary_results) ∧
    (merge_and_deduplicate_results primary_results secondary_results).length ≤ 10 ∧
    (∀ r ∈ merge_and_deduplicate_results primary_results secondary_results,
        r ∈ primary_results ++ secondary_results ∧
        (primary_results ++ secondary_results).find?
          (fun x => x.id == r.id) = some r) ∧
    ((merge_and_deduplicate_results primary_results secondary_results).filterMap
        (fun r => r.id)).Nodup ∧
    query_confidence [] = 0 ∧
    (∀ r0 rest,
        merge_and_deduplicate_results primary_results secondary_results =
          r0 :: rest →
        query_confidence
          (merge_and_deduplicate_results primary_results secondary_results) =
          r0.score) ∧
    (∀ r ∈ merge_and_deduplicate_results primary_results secondary_results,
        r.score ≤ query_confidence
          (merge_and_deduplicate_results primary_results secondary_results)) ∧
    (∀ r ∈ primary_results ++ secondary_results,
        (∃ i, r.id = some i ∧ i ≠ "") →
        (dedup_by_seen [] (primary_results ++ secondary_results)).length ≤ 10 →
        ∃ r' ∈ merge_and_deduplicate_results primary_results secondary_results,
          r'.id = r.id) := by
  have hsorted : List.Sorted result_ge
      (merge_and_deduplicate_results primary_results secondary_results) :=
    List.Pairwise.sublist (List.take_sublist _ _)
      (List.sorted_insertionSort result_ge _)
  have hkey : ∀ r ∈ merge_and_deduplicate_results primary_results secondary_results,
      r ∈ dedup_by_seen [] (primary_results ++ secondary_results) := by
    intro r hr
    exact (List.mem_insertionSort result_ge).mp ((List.take_sublist _ _).subset hr)
  refine ⟨hsorted, List.length_take_le _ _, ?_, ?_, by norm_num [query_confidence],
    ?_, ?_, ?_⟩
  · intro r hr
    obtain ⟨hmem, _, hfind⟩ := dedup_by_seen_spec _ _ _ (hkey r hr)
    exact ⟨hmem, hfind⟩
  · refine List.Nodup.sublist ((List.take_sublist 10 _).filterMap _) ?_
    exact (((List.perm_insertionSort result_ge
        (dedup_by_seen [] (primary_results ++ secondary_results))).symm).filterMap
        (fun r => r.id)).nodup (dedup_by_seen_ids_nodup _ _)
  · intro r0 rest he
    rw [he]
    rfl
  · intro r hr
    rcases hm : merge_and_deduplicate_results primary_results secondary_results
      with _ | ⟨r0, rest⟩
    · rw [hm] at hr; cases hr
    · rw [hm] at hr hsorted
      rcases List.mem_cons.mp hr with rfl | hr'
      · exact le_refl _
      · exact List.rel_of_sorted_cons hsorted r hr'
  · intro r hr ⟨i, hi, hi0⟩ hlen
    obtain ⟨r', hr', hid⟩ :=
      dedup_by_seen_covers _ [] r hr ⟨i, hi, hi0, by simp⟩
    refine ⟨r', ?_, hid⟩
    unfold merge_and_deduplicate_results
    rw [List.take_of_length_le
      (by simpa using le_trans (le_of_eq
        (List.perm_insertionSort result_ge _).length_eq) hlen)]
    exact (List.mem_insertionSort result_ge).mpr hr'

/-- C8 (witness): in the merge of `primary_w` and `secondary_w`, the
surviving `"a"` result is the first occurrence of its id in the
concatenated input. -/
theorem C8_witness :
    result_w ∈ primary_w ++ secondary_w ∧
    (primary_w ++ secondary_w).find?
      (fun x => x.id == result_w.id) = some result_w :=
  (C8_merge_contract primary_w secondary_w).2.2.1 result_w
    (of_decide_eq_true (by with_unfolding_all rfl))

/-- C9: an error with exactly two affected devices, a single affected
model and a same-model occurrence rate below 0.4 appears in neither the
systemic nor the single-unit list — the two classifications are not
exhaustive over observed errors. -/
theorem C9_two_device_gap (fleet : FleetState) (ec : String)
    (st : ErrorStatistics)
    (hmem : (ec, st) ∈ analyze_error_distribution fleet)
    (h1 : st.affected_robots = 2) (h2 : st.models_affected.length = 1)
    (h3 : st.occurrence_rate < 0.4) :
    ec ∉ (diagnose_fleet_issues fleet).systemic_issues.map
        (fun i => i.error_code) ∧
    ec ∉ (diagnose_fleet_issues fleet).single_unit_issues.map
        (fun i => i.error_code) := by
  constructor
  · intro hc
    obtain ⟨st', hmem', hcond⟩ := systemic_error_code_mem.mp hc
    rw [assoc_nodup_eq (analyze_error_distribution_keys_nodup fleet) hmem' hmem]
      at hcond
    rcases hcond with h | h | h
    · omega
    · exact absurd h (not_le.mpr h3)
    · omega
  · intro hc
    obtain ⟨st', hmem', hcond⟩ := single_unit_error_code_mem.mp hc
    rw [assoc_nodup_eq (analyze_error_distribution_keys_nodup fleet) hmem' hmem]
      at hcond
    omega

/-- C9 (witness): in `fleet_pair_issue` the error `E101` affects two of
six same-model devices (rate `1/3`) and is listed in neither
classification. -/
theorem C9_witness :
    "E101" ∉ (diagnose_fleet_issues fleet_pair_issue).systemic_issues.map
        (fun i => i.error_code) ∧
    "E101" ∉ (diagnose_fleet_issues fleet_pair_issue).single_unit_issues.map
        (fun i => i.error_code) :=
  C9_two_device_gap fleet_pair_issue "E101" stats_pair_issue
    (of_decide_eq_true (by with_unfolding_all rfl)) rfl rfl
    (of_decide_eq_true (by with_unfolding_all rfl))

/-- C10: every result surviving the merge has a truthy id — a result
whose id is missing or empty is silently dropped, regardless of its
score. -/
theorem C10_falsy_id_dropped (primary_results secondary_results : List SearchResult) :
    ∀ r ∈ merge_and_deduplicate_results primary_results secondary_results,
      ∃ i, r.id = some i ∧ i ≠ "" := by
  intro r hr
  have hr' : r ∈ dedup_by_seen [] (primary_results ++ secondary_results) :=
    (List.mem_insertionSort result_ge).mp ((List.take_sublist _ _).subset hr)
  obtain ⟨_, ⟨i, hi, hi0, _⟩, _⟩ := dedup_by_seen_spec _ _ _ hr'
  exact ⟨i, hi, hi0⟩

/-- C10 (witness): the id-less primary result with the top score 0.99 is
dropped — only the id-carrying result survives the merge of `primary_x`
with an empty secondary list. -/
theorem C10_witness :
    merge_and_deduplicate_results primary_x [] = [result_x] ∧
    (∃ i, result_x.id = some i ∧ i ≠ "") :=
  ⟨of_decide_eq_true (by with_unfolding_all rfl),
    C10_falsy_id_dropped primary_x [] result_x
      (of_decide_eq_true (by with_unfolding_all rfl))⟩

end AiRos
